import Mathlib

/-!
# Verification of the MercadoLibre scanner (`main.py`)

A shallow embedding of the scan pipeline of `main.py`:
the page prober (`verificar_pagina_existe`), the field extraction run per
listing item inside `escanear_mercadolibre`, the per-category pagination
loop, and the `/scan` endpoint (`scan_mercadolibre`).

The network transport (`requests.get`) and the HTML parser (BeautifulSoup)
are external collaborators.  A fetch is modelled as an oracle
`String → FetchResult`; a successful fetch carries the raw response text
together with the parse results the code inspects (the two item selectors
and the per-item element lookups).  Python string primitives used by the
code (`[:300]`, `strip`, `startswith`, `split`, `join`, `replace`) are
embedded as structurally recursive functions over `List Char`, so that every
definition evaluates inside the kernel.
-/

set_option maxRecDepth 40000

namespace MLScan

/-- Python `s[:n]`: the first `n` characters of `s`. -/
def pyTake (s : String) (n : Nat) : String :=
  (s.toList.take n).asString

/-- Python `s.strip()`: remove leading and trailing whitespace. -/
def pyStrip (s : String) : String :=
  (((s.toList.dropWhile Char.isWhitespace).reverse.dropWhile
      Char.isWhitespace).reverse).asString

/-- Python `s.startswith(t)`. -/
def pyStartsWith (s t : String) : Bool :=
  t.toList.isPrefixOf s.toList

/-- Helper for Python `s.split()`: accumulate the current word (reversed). -/
def wordsAux : List Char → List Char → List String
  | [], acc => if acc.isEmpty then [] else [acc.reverse.asString]
  | c :: cs, acc =>
    if c.isWhitespace then
      if acc.isEmpty then wordsAux cs [] else acc.reverse.asString :: wordsAux cs []
    else wordsAux cs (c :: acc)

/-- Python `s.split()`: split on whitespace runs, dropping empty pieces. -/
def pyWords (s : String) : List String :=
  wordsAux s.toList []

/-- Python `sep.join(ws)`. -/
def pyJoin (sep : String) : List String → String
  | [] => ""
  | [w] => w
  | w :: ws => w ++ sep ++ pyJoin sep ws

/-- Fuel-driven core of Python `s.replace(old, new)` for a non-empty
`old`: replace non-overlapping occurrences left to right.  The fuel bounds
the number of steps; `pyReplace` supplies `s.length`, which is enough since
every step consumes at least one character. -/
def pyReplaceFuel (old new : List Char) : Nat → List Char → List Char
  | _, [] => []
  | 0, l => l
  | fuel + 1, c :: cs =>
    if old.isPrefixOf (c :: cs) then
      new ++ pyReplaceFuel old new fuel ((c :: cs).drop old.length)
    else
      c :: pyReplaceFuel old new fuel cs

/-- Python `s.replace(old, new)` (used with the non-empty pattern
`"_OrderId"`). -/
def pyReplace (s old new : String) : String :=
  (pyReplaceFuel old.toList new.toList s.toList.length s.toList).asString

/-- Does `old` occur (as a contiguous sublist) in `l`?  Used to state that
a pattern has no occurrence in a string. -/
def occursIn (old : List Char) : List Char → Bool
  | [] => old.isEmpty
  | c :: cs => old.isPrefixOf (c :: cs) || occursIn old cs

/-- `noStartIn old pre rest`: no non-empty suffix `s` of `pre` is such that
`old` is a prefix of `s ++ rest`.  Used to state that the first occurrence
of `old` in `pre ++ rest` is not inside `pre`. -/
def noStartIn (old : List Char) : List Char → List Char → Bool
  | [], _ => true
  | c :: cs, rest => !(old.isPrefixOf (c :: (cs ++ rest))) && noStartIn old cs rest

/-- Python `re` match of the pattern `ML[A-Z]-?\d+` anchored at the head of
the character list: literal `M`, `L`, one ASCII uppercase letter, an
optional hyphen, then one or more digits (greedy).  `-?` backtracks: a
hyphen is consumed only when digits follow it.  (`\d` is restricted to
ASCII digits; the scanned text is a URL.) -/
def matchIdAt : List Char → Option (List Char)
  | 'M' :: 'L' :: c :: rest =>
    if c.isUpper then
      match rest with
      | '-' :: rest2 =>
        let ds := rest2.takeWhile Char.isDigit
        if ds.isEmpty then none else some ('M' :: 'L' :: c :: '-' :: ds)
      | _ =>
        let ds := rest.takeWhile Char.isDigit
        if ds.isEmpty then none else some ('M' :: 'L' :: c :: ds)
    else none
  | _ => none

/-- Python `re.search(r'ML[A-Z]-?\d+', s)`: the leftmost match, scanning
start positions left to right. -/
def firstIdMatch : List Char → Option (List Char)
  | [] => none
  | c :: rest =>
    match matchIdAt (c :: rest) with
    | some m => some m
    | none => firstIdMatch rest

/-- The first `<a href=...>` element of a listing item, as the code reads
it: the `href` value plus the `title` / `aria-label` attributes (Python
`.get(attr, '')` returns `""` when the attribute is absent, so plain
strings suffice). -/
structure Anchor where
  href : String
  titleAttr : String
  ariaLabel : String
  deriving DecidableEq

/-- The first `<img>` element of a listing item: its `data-src` and `src`
attributes (`none` = attribute absent). -/
structure Img where
  dataSrc : Option String
  src : Option String
  deriving DecidableEq

/-- One listing-item fragment, as the black-box parser answers the exact
lookups the code performs on it (`find` / `get_text`).  Each `Option` is
`none` when the element is absent; a found element may still have empty
text. -/
structure Item where
  /-- Text of `item.find('h2', class_='ui-search-item__title')`. -/
  h2TitleClass : Option String
  /-- Text of `item.find('h2')`. -/
  h2Any : Option String
  /-- `item.find('a', href=True)`. -/
  anchor : Option Anchor
  /-- Text of `item.find('div', class_=re.compile('.*title.*', re.I))`. -/
  titleDiv : Option String
  /-- `item.get_text(strip=True)`. -/
  fullText : String
  /-- Text of `item.find('span', class_='andes-money-amount__fraction')`. -/
  priceSpan : Option String
  /-- `item.find('img')`. -/
  img : Option Img
  deriving DecidableEq

/-- A fetched response: `response.text` plus the parse results the code
inspects.  `hasRescue` records `soup.find('div', class_='ui-search-rescue')`;
the code consults it only for logging, so no definition reads it. -/
structure Page where
  /-- `response.text`. -/
  rawText : String
  /-- `soup.find_all('li', class_='ui-search-layout__item')`. -/
  items1 : List Item
  /-- `soup.find_all('div', class_='ui-search-result')`. -/
  items2 : List Item
  hasRescue : Bool
  deriving DecidableEq

/-- Result of one `requests.get`: a transport error (`requests`
exception), or a response with its status code and content. -/
inductive FetchResult where
  | failure
  | success (status : Nat) (page : Page)
  deriving DecidableEq

/-- The network oracle for one scan: what each `requests.get` returns.  The
probe (timeout 10) and the full fetch (timeout 15) are distinct requests,
so they are distinct oracles; within a scan each is applied at most once
per URL. -/
structure ScanEnv where
  probeFetch : String → FetchResult
  fullFetch : String → FetchResult

/-- The product record built inside the item loop.  The wall-clock stamps
`timestamp` / `fecha` (capture time, from `datetime.now()`) are outside
the embedding; no claim mentions them. -/
structure Producto where
  id : String
  title : String
  price : String
  link : String
  image : String
  categoria : String
  pagina : Nat
  deriving DecidableEq

/-- The `stats` dictionary returned by `escanear_mercadolibre`. -/
structure Stats where
  celulares_total : Nat
  notebooks_total : Nat
  deriving DecidableEq

/-- The claim-relevant fields of the `/scan` endpoint's `ScanResponse`. -/
structure ScanResponseM where
  success : Bool
  total_productos : Nat
  celulares : List Producto
  notebooks : List Producto
  deriving DecidableEq

/-- One network request issued by the pagination walker, labelled with the
page number it targets: the probe `GET` inside `verificar_pagina_existe`,
or the full-extraction `GET`. -/
inductive Req where
  | probe (pagina : Nat)
  | full (pagina : Nat)
  deriving DecidableEq

/-- The page number a request targets. -/
def Req.pageOf : Req → Nat
  | .probe p => p
  | .full p => p

/-- Is the request a full-extraction fetch? -/
def Req.isFull : Req → Bool
  | .probe _ => false
  | .full _ => true

/-- Is the request a probe? -/
def Req.isProbe : Req → Bool
  | .probe _ => true
  | .full _ => false

/-- `URLS["celulares"]`. -/
def URL_celulares : String :=
  "https://listado.mercadolibre.cl/celulares-telefonia/celulares-smartphones/usado/celular_OrderId_PRICE_PublishedToday_YES_NoIndex_True"

/-- `URLS["notebooks"]`. -/
def URL_notebooks : String :=
  "https://listado.mercadolibre.cl/computacion/notebooks-accesorios/notebooks/usado/notebook_OrderId_PRICE_PublishedToday_YES_NoIndex_True"

/-- `PAGINAS_CONFIG` as an association list. -/
def PAGINAS_CONFIG : List (String × Nat) :=
  [("celulares", 3), ("notebooks", 2)]

/-- `PAGINAS_CONFIG.get(categoria, 1)`. -/
def paginasConfigGet (categoria : String) : Nat :=
  (PAGINAS_CONFIG.lookup categoria).getD 1

/-- `extraer_titulo(item)` (`main.py` lines 76-110): five options tried in
order, the first non-empty result winning.  Option 3 is
`link_elem.get('title', '') or link_elem.get('aria-label', '')`; option 5
joins the first 15 whitespace-split tokens of the item's full text, but
only if the first 10 tokens joined exceed 10 characters. -/
def extraer_titulo (item : Item) : String :=
  let t1 := item.h2TitleClass.getD ""
  if t1 ≠ "" then t1 else
  let t2 := item.h2Any.getD ""
  if t2 ≠ "" then t2 else
  let t3 :=
    match item.anchor with
    | some a => if a.titleAttr ≠ "" then a.titleAttr else a.ariaLabel
    | none => ""
  if t3 ≠ "" then t3 else
  let t4 := item.titleDiv.getD ""
  if t4 ≠ "" then t4 else
  let words := pyWords item.fullText
  if (pyJoin " " (words.take 10)).length > 10 then pyJoin " " (words.take 15)
  else ""

/-- Link extraction (`main.py` lines 225-230): the first anchor's `href`,
prefixed with the fixed site origin when it does not start with `"http"`;
`""` when the item has no anchor. -/
def extraer_link (item : Item) : String :=
  match item.anchor with
  | none => ""
  | some a =>
    if pyStartsWith a.href "http" then a.href
    else "https://www.mercadolibre.cl" ++ a.href

/-- Price extraction (`main.py` lines 233-236): `"$ " + text` of the money
fraction span, `"$ 0"` when absent. -/
def extraer_precio (item : Item) : String :=
  match item.priceSpan with
  | some t => "$ " ++ t
  | none => "$ 0"

/-- Image extraction (`main.py` lines 239-242):
`img_elem.get('data-src') or img_elem.get('src') or ""`. -/
def extraer_imagen (item : Item) : String :=
  match item.img with
  | none => ""
  | some im =>
    let d := im.dataSrc.getD ""
    if d ≠ "" then d else im.src.getD ""

/-- Id extraction (`main.py` lines 245-249): when the link is non-empty,
the first `ML[A-Z]-?\d+` match in it with hyphens removed; otherwise
`""`. -/
def extraer_id (link : String) : String :=
  if link = "" then ""
  else
    match firstIdMatch link.toList with
    | none => ""
    | some m => (m.filter (fun c => c ≠ '-')).asString

/-- The body of the item loop (`main.py` lines 219-271): extract the five
fields, then drop the item unless `title`, `link` and `id` are all
non-empty (`if not title or not link or not product_id: continue`). -/
def extraerProducto (categoria : String) (pagina : Nat) (item : Item) :
    Option Producto :=
  let title := extraer_titulo item
  let link := extraer_link item
  let price := extraer_precio item
  let image := extraer_imagen item
  let product_id := extraer_id link
  if title = "" ∨ link = "" ∨ product_id = "" then none
  else some { id := product_id, title := title, price := price, link := link,
              image := image, categoria := categoria, pagina := pagina }

/-- Item selection shared by the probe and the full fetch: the primary
selector's matches, or the secondary selector's when the primary finds
nothing (`if not items: items = soup.find_all('div', ...)`). -/
def seleccionar_items (page : Page) : List Item :=
  if page.items1.isEmpty then page.items2 else page.items1

/-- `response.text[:300].strip()`. -/
def htmlPreview (text : String) : String :=
  pyStrip (pyTake text 300)

/-- `verificar_pagina_existe(url)` (`main.py` lines 112-160): `(False, 0)`
on a transport error, a status other than 200, or a preview that does not
start with `'<'`; otherwise the item count via `seleccionar_items`, with
`(False, 0)` when it is zero (the `ui-search-rescue` lookup in that branch
only logs). -/
def verificar_pagina_existe (env : ScanEnv) (url : String) : Bool × Nat :=
  match env.probeFetch url with
  | .failure => (false, 0)
  | .success status page =>
    if status ≠ 200 then (false, 0)
    else if ¬ pyStartsWith (htmlPreview page.rawText) "<" then (false, 0)
    else
      let items := seleccionar_items page
      if items.length > 0 then (true, items.length) else (false, 0)

/-- Page-1 URL is the base template verbatim; later pages insert
`_Desde_{(pagina-1)*50+1}` before `_OrderId` via `str.replace`
(`main.py` lines 188-192). -/
def buildUrl (url_base : String) (pagina : Nat) : String :=
  if pagina = 1 then url_base
  else
    let offset := (pagina - 1) * 50 + 1
    pyReplace url_base "_OrderId" ("_Desde_" ++ Nat.repr offset ++ "_OrderId")

/-- The full-extraction part of one loop iteration (`main.py` lines
205-281): `none` when the fetch raises or returns a status other than 200
(the page is skipped but the loop advances), otherwise the accepted
records of the page's items. -/
def procesar_pagina (env : ScanEnv) (categoria : String) (pagina : Nat)
    (url : String) : Option (List Producto) :=
  match env.fullFetch url with
  | .failure => none
  | .success status page =>
    if status ≠ 200 then none
    else some ((seleccionar_items page).filterMap (extraerProducto categoria pagina))

/-- The accepted records of page `p`, empty when the full fetch failed. -/
def pageRecords (env : ScanEnv) (categoria url_base : String) (p : Nat) :
    List Producto :=
  (procesar_pagina env categoria p (buildUrl url_base p)).getD []

/-- The `while pagina <= num_paginas_max` loop of `escanear_mercadolibre`
(`main.py` lines 187-283), with the requests it issues logged.  The probe
request is always issued; when the probe reports non-existence the loop
breaks; otherwise the full fetch is issued, a failed full fetch merely
yields no records, and the loop advances.  Structural fuel; the caller
supplies `num_paginas_max + 1`, which covers every iteration plus the
final loop-condition check. -/
def walkFromFuel (env : ScanEnv) (categoria url_base : String) (maxP : Nat) :
    Nat → Nat → List Producto × List Req
  | 0, _ => ([], [])
  | fuel + 1, pagina =>
    if pagina > maxP then ([], [])
    else
      let url := buildUrl url_base pagina
      if (verificar_pagina_existe env url).1 then
        let recs := (procesar_pagina env categoria pagina url).getD []
        let next := walkFromFuel env categoria url_base maxP fuel (pagina + 1)
        (recs ++ next.1, Req.probe pagina :: Req.full pagina :: next.2)
      else ([], [Req.probe pagina])

/-- One category's walk: records accumulated in page order, plus the
request trace. -/
def escanear_categoria (env : ScanEnv) (categoria url_base : String)
    (maxP : Nat) : List Producto × List Req :=
  walkFromFuel env categoria url_base maxP (maxP + 1) 1

/-- `escanear_mercadolibre()` (`main.py` lines 162-304): the `for categoria
in URLS` loop unrolled over the two configured categories, in dict order;
returns the two per-category lists and the stats counts. -/
def escanear_mercadolibre (env : ScanEnv) : List Producto × List Producto × Stats :=
  let celulares_lista :=
    (escanear_categoria env "celulares" URL_celulares
      (paginasConfigGet "celulares")).1
  let notebooks_lista :=
    (escanear_categoria env "notebooks" URL_notebooks
      (paginasConfigGet "notebooks")).1
  (celulares_lista, notebooks_lista,
    { celulares_total := celulares_lista.length,
      notebooks_total := notebooks_lista.length })

/-- The `/scan` endpoint (`main.py` lines 331-365).  `escanear_mercadolibre`
catches every fetch-level error internally (`verificar_pagina_existe`
catches all exceptions; the full fetch catches `requests.RequestException`),
so the endpoint's `except` branch is unreachable for network failures and
the success response is always built. -/
def scan_mercadolibre (env : ScanEnv) : ScanResponseM :=
  let r := escanear_mercadolibre env
  { success := true,
    total_productos := r.1.length + r.2.1.length,
    celulares := r.1,
    notebooks := r.2.1 }

/-- An accepted record has non-empty `title`, `link` and `id`, and carries
the category and page number of the loop iteration that built it. -/
theorem extraerProducto_eq_some (categoria : String) (pagina : Nat)
    (item : Item) (r : Producto)
    (h : extraerProducto categoria pagina item = some r) :
    r.title ≠ "" ∧ r.link ≠ "" ∧ r.id ≠ "" ∧ r.pagina = pagina ∧
      r.categoria = categoria := by
  simp only [extraerProducto] at h
  split at h
  · simp at h
  · next hcond =>
    push_neg at hcond
    rw [Option.some.injEq] at h
    subst h
    exact ⟨hcond.1, hcond.2.1, hcond.2.2, rfl, rfl⟩

/-- Every record a page contributes comes from one of its items through
`extraerProducto`. -/
theorem mem_procesar_getD (env : ScanEnv) (categoria url : String)
    (pagina : Nat) (r : Producto)
    (h : r ∈ (procesar_pagina env categoria pagina url).getD []) :
    ∃ it : Item, extraerProducto categoria pagina it = some r := by
  unfold procesar_pagina at h
  split at h
  · simp at h
  · split at h
    · simp at h
    · simp only [Option.getD_some] at h
      rcases List.mem_filterMap.1 h with ⟨it, _, hit⟩
      exact ⟨it, hit⟩

/-- Loop invariant: every record the walk from page `pagina` produces has
non-empty required fields, carries the category, and its page number lies
in `[pagina, maxP]`. -/
theorem walk_mem_fields (env : ScanEnv) (categoria url_base : String)
    (maxP : Nat) :
    ∀ fuel pagina r,
      r ∈ (walkFromFuel env categoria url_base maxP fuel pagina).1 →
      r.title ≠ "" ∧ r.link ≠ "" ∧ r.id ≠ "" ∧ r.categoria = categoria ∧
        pagina ≤ r.pagina ∧ r.pagina ≤ maxP := by
  intro fuel
  induction fuel with
  | zero => intro pagina r hr; simp [walkFromFuel] at hr
  | succ n ih =>
    intro pagina r hr
    simp only [walkFromFuel] at hr
    split at hr
    · simp at hr
    · next hle =>
      split at hr
      · rcases List.mem_append.1 hr with hl | hr'
        · rcases mem_procesar_getD _ _ _ _ _ hl with ⟨it, hit⟩
          obtain ⟨h1, h2, h3, h4, h5⟩ := extraerProducto_eq_some _ _ _ _ hit
          exact ⟨h1, h2, h3, h5, by omega, by omega⟩
        · obtain ⟨h1, h2, h3, h4, h5, h6⟩ := ih (pagina + 1) r hr'
          exact ⟨h1, h2, h3, h4, by omega, h6⟩
      · simp at hr

/-- A list of naturals all equal to `c` is pairwise `≤`. -/
theorem pairwise_of_all_eq (c : Nat) :
    ∀ l : List Nat, (∀ x ∈ l, x = c) → List.Pairwise (fun a b => a ≤ b) l := by
  intro l
  induction l with
  | nil => intro _; exact List.Pairwise.nil
  | cons a t ih =>
    intro h
    refine List.Pairwise.cons (fun b hb => ?_)
      (ih fun x hx => h x (List.mem_cons_of_mem _ hx))
    rw [h a (List.mem_cons_self _ _), h b (List.mem_cons_of_mem _ hb)]

/-- Loop invariant: the page numbers of the records the walk produces are
nondecreasing in output order. -/
theorem walk_sorted (env : ScanEnv) (categoria url_base : String)
    (maxP : Nat) :
    ∀ fuel pagina,
      List.Pairwise (fun a b => a ≤ b)
        ((walkFromFuel env categoria url_base maxP fuel pagina).1.map
          (fun r => r.pagina)) := by
  intro fuel
  induction fuel with
  | zero => intro pagina; simp [walkFromFuel]
  | succ n ih =>
    intro pagina
    simp only [walkFromFuel]
    split
    · simp
    · next hle =>
      split
      · rw [List.map_append, List.pairwise_append]
        refine ⟨pairwise_of_all_eq pagina _ ?_, ih (pagina + 1), ?_⟩
        · intro x hx
          rcases List.mem_map.1 hx with ⟨r, hr, rfl⟩
          rcases mem_procesar_getD _ _ _ _ _ hr with ⟨it, hit⟩
          exact (extraerProducto_eq_some _ _ _ _ hit).2.2.2.1
        · intro x hx y hy
          rcases List.mem_map.1 hx with ⟨r, hr, rfl⟩
          rcases List.mem_map.1 hy with ⟨s, hs, rfl⟩
          rcases mem_procesar_getD _ _ _ _ _ hr with ⟨it, hit⟩
          have hx' := (extraerProducto_eq_some _ _ _ _ hit).2.2.2.1
          have hy' := (walk_mem_fields env categoria url_base maxP n
            (pagina + 1) s hs).2.2.2.2.1
          omega
      · simp

/-- Concrete witness item: a well-formed listing item whose link is the
relative href `/MLC-123456-foo`. -/
def itemW : Item :=
  { h2TitleClass := some "iPhone 12", h2Any := some "iPhone 12",
    anchor := some { href := "/MLC-123456-foo", titleAttr := "", ariaLabel := "" },
    titleDiv := none, fullText := "iPhone 12",
    priceSpan := some "199.990", img := none }

/-- Concrete witness page holding `itemW`. -/
def pageW : Page :=
  { rawText := "<html>", items1 := [itemW], items2 := [], hasRescue := false }

/-- Concrete witness environment: the celulares base URL responds with
`pageW`; every other URL (later pages, notebooks) fails at transport
level. -/
def envW : ScanEnv :=
  { probeFetch := fun url => if url = URL_celulares then .success 200 pageW else .failure,
    fullFetch := fun url => if url = URL_celulares then .success 200 pageW else .failure }

/-- The record the scan of `envW` accepts from `itemW`. -/
def recW : Producto :=
  { id := "MLC123456", title := "iPhone 12", price := "$ 199.990",
    link := "https://www.mercadolibre.cl/MLC-123456-foo", image := "",
    categoria := "celulares", pagina := 1 }

/-- An item none of whose lookups succeeds: every extraction rule yields
the empty string. -/
def itemEmpty : Item :=
  { h2TitleClass := none, h2Any := none, anchor := none, titleDiv := none,
    fullText := "", priceSpan := none, img := none }

/-- C1: every record in the scan output (either category list of
`escanear_mercadolibre`) has non-empty `title`, non-empty `link` and
non-empty `id`; and an item for which any of the three is empty after
extraction contributes no record. -/
theorem C1_output_fields_nonempty :
    (∀ (env : ScanEnv) (r : Producto),
      (r ∈ (escanear_mercadolibre env).1 ∨
        r ∈ (escanear_mercadolibre env).2.1) →
      r.title ≠ "" ∧ r.link ≠ "" ∧ r.id ≠ "") ∧
    (∀ (categoria : String) (pagina : Nat) (item : Item),
      (extraer_titulo item = "" ∨ extraer_link item = "" ∨
        extraer_id (extraer_link item) = "") →
      extraerProducto categoria pagina item = none) := by
  constructor
  · intro env r hr
    rcases hr with h | h
    · have hm := walk_mem_fields env "celulares" URL_celulares
        (paginasConfigGet "celulares") (paginasConfigGet "celulares" + 1) 1 r h
      exact ⟨hm.1, hm.2.1, hm.2.2.1⟩
    · have hm := walk_mem_fields env "notebooks" URL_notebooks
        (paginasConfigGet "notebooks") (paginasConfigGet "notebooks" + 1) 1 r h
      exact ⟨hm.1, hm.2.1, hm.2.2.1⟩
  · intro categoria pagina item hempty
    unfold extraerProducto
    rw [if_pos hempty]

/-- C1 witness: in `envW` the scan output contains `recW`, whose three
fields the theorem shows non-empty; and the all-empty item `itemEmpty` is
dropped. -/
theorem C1_output_fields_nonempty_witness :
    ((recW ∈ (escanear_mercadolibre envW).1 ∨
       recW ∈ (escanear_mercadolibre envW).2.1) ∧
     (recW.title ≠ "" ∧ recW.link ≠ "" ∧ recW.id ≠ "")) ∧
    ((extraer_titulo itemEmpty = "" ∨ extraer_link itemEmpty = "" ∨
       extraer_id (extraer_link itemEmpty) = "") ∧
     extraerProducto "celulares" 1 itemEmpty = none) :=
  ⟨⟨by decide, C1_output_fields_nonempty.1 envW recW (by decide)⟩,
   ⟨by decide, C1_output_fields_nonempty.2 "celulares" 1 itemEmpty (by decide)⟩⟩

/-- C10: within one category's output, records appear in nondecreasing
page-number order, and every record's page number `n` satisfies
`1 ≤ n ≤ maxP`, the configured maximum page count of the category. -/
theorem C10_page_numbers_ordered_and_bounded (env : ScanEnv)
    (categoria url_base : String) (maxP : Nat) :
    List.Pairwise (fun a b => a ≤ b)
      ((escanear_categoria env categoria url_base maxP).1.map
        (fun r => r.pagina)) ∧
    ∀ r ∈ (escanear_categoria env categoria url_base maxP).1,
      1 ≤ r.pagina ∧ r.pagina ≤ maxP := by
  constructor
  · exact walk_sorted env categoria url_base maxP (maxP + 1) 1
  · intro r hr
    have hm := walk_mem_fields env categoria url_base maxP (maxP + 1) 1 r hr
    exact ⟨hm.2.2.2.2.1, hm.2.2.2.2.2⟩

/-- C10 witness: in `envW` the record `recW` is in the celulares walk
output (page cap 3), and the theorem bounds its page number. -/
theorem C10_page_numbers_witness :
    recW ∈ (escanear_categoria envW "celulares" URL_celulares 3).1 ∧
    1 ≤ recW.pagina ∧ recW.pagina ≤ 3 :=
  ⟨by decide,
    (C10_page_numbers_ordered_and_bounded envW "celulares" URL_celulares 3).2
      recW (by decide)⟩

/-- One loop iteration whose probe reports existence: the page's accepted
records (empty if the full fetch failed) are prepended, both requests are
logged, and the loop advances to the next page. -/
theorem walk_step_true (env : ScanEnv) (categoria url_base : String)
    (maxP fuel pagina : Nat) (hle : pagina ≤ maxP)
    (hprobe : (verificar_pagina_existe env (buildUrl url_base pagina)).1 = true) :
    walkFromFuel env categoria url_base maxP (fuel + 1) pagina =
      (pageRecords env categoria url_base pagina ++
        (walkFromFuel env categoria url_base maxP fuel (pagina + 1)).1,
       Req.probe pagina :: Req.full pagina ::
         (walkFromFuel env categoria url_base maxP fuel (pagina + 1)).2) := by
  simp only [walkFromFuel]
  rw [if_neg (by omega : ¬ pagina > maxP), if_pos hprobe]
  rfl

/-- One loop iteration whose probe reports non-existence: the category
terminates with only the probe request logged. -/
theorem walk_step_false (env : ScanEnv) (categoria url_base : String)
    (maxP fuel pagina : Nat) (hle : pagina ≤ maxP)
    (hprobe : (verificar_pagina_existe env (buildUrl url_base pagina)).1 = false) :
    walkFromFuel env categoria url_base maxP (fuel + 1) pagina =
      ([], [Req.probe pagina]) := by
  simp only [walkFromFuel]
  rw [if_neg (by omega : ¬ pagina > maxP), if_neg (by simp [hprobe])]

/-- C5: when the probe of a page succeeded but the full fetch fails with a
transport error or a non-2xx status, the walker extracts no records from
that page yet still advances to the next page number; the failed full
fetch does not terminate the category. -/
theorem C5_failed_full_fetch_advances (env : ScanEnv)
    (categoria url_base : String) (maxP fuel pagina : Nat)
    (hle : pagina ≤ maxP)
    (hprobe : (verificar_pagina_existe env (buildUrl url_base pagina)).1 = true)
    (hfail : env.fullFetch (buildUrl url_base pagina) = .failure ∨
             ∃ st page,
               env.fullFetch (buildUrl url_base pagina) = .success st page ∧
               ¬(200 ≤ st ∧ st < 300)) :
    walkFromFuel env categoria url_base maxP (fuel + 1) pagina =
      ((walkFromFuel env categoria url_base maxP fuel (pagina + 1)).1,
       Req.probe pagina :: Req.full pagina ::
         (walkFromFuel env categoria url_base maxP fuel (pagina + 1)).2) := by
  have hskip : procesar_pagina env categoria pagina (buildUrl url_base pagina)
      = none := by
    unfold procesar_pagina
    rcases hfail with hf | ⟨st, page, hf, hst⟩
    · rw [hf]
    · simp only [hf]
      rw [if_pos (by omega : st ≠ 200)]
  have hpr : pageRecords env categoria url_base pagina = [] := by
    unfold pageRecords
    rw [hskip]
    rfl
  rw [walk_step_true env categoria url_base maxP fuel pagina hle hprobe, hpr,
    List.nil_append]

/-- C5 environment: probes succeed, every full fetch fails at transport
level. -/
def env5 : ScanEnv :=
  { probeFetch := fun _ => .success 200 pageW, fullFetch := fun _ => .failure }

/-- C5 witness: in `env5` page 1 of a two-page category probes as existing,
the full fetch fails, and the theorem shows the loop advances to page 2
with no records from page 1. -/
theorem C5_failed_full_fetch_advances_witness :
    (1 ≤ 2 ∧
     (verificar_pagina_existe env5 (buildUrl URL_celulares 1)).1 = true ∧
     env5.fullFetch (buildUrl URL_celulares 1) = .failure) ∧
    walkFromFuel env5 "celulares" URL_celulares 2 2 1 =
      ((walkFromFuel env5 "celulares" URL_celulares 2 1 2).1,
       Req.probe 1 :: Req.full 1 ::
         (walkFromFuel env5 "celulares" URL_celulares 2 1 2).2) :=
  ⟨⟨by decide, by decide, by decide⟩,
   C5_failed_full_fetch_advances env5 "celulares" URL_celulares 2 1 1
     (by decide) (by decide) (Or.inl (by decide))⟩

/-- C6: with a page cap of 3 and probes of pages 1, 2, 3 reporting exists,
exists, not-exists, the walker's output is the accepted records of page 1
followed by those of page 2, and it issues exactly 2 full fetches and 3
probes, the page-3 probe terminating the category before any page-3 full
fetch. -/
theorem C6_three_page_scenario (env : ScanEnv) (categoria url_base : String)
    (h1 : (verificar_pagina_existe env (buildUrl url_base 1)).1 = true)
    (h2 : (verificar_pagina_existe env (buildUrl url_base 2)).1 = true)
    (h3 : (verificar_pagina_existe env (buildUrl url_base 3)).1 = false) :
    (escanear_categoria env categoria url_base 3).1 =
      pageRecords env categoria url_base 1 ++
        pageRecords env categoria url_base 2 ∧
    (escanear_categoria env categoria url_base 3).2 =
      [Req.probe 1, Req.full 1, Req.probe 2, Req.full 2, Req.probe 3] ∧
    ((escanear_categoria env categoria url_base 3).2.countP Req.isFull) = 2 ∧
    ((escanear_categoria env categoria url_base 3).2.countP Req.isProbe) = 3 := by
  have s1 := walk_step_true env categoria url_base 3 3 1 (by omega) h1
  have s2 := walk_step_true env categoria url_base 3 2 2 (by omega) h2
  have s3 := walk_step_false env categoria url_base 3 1 3 (by omega) h3
  norm_num at s1 s2 s3
  have e : escanear_categoria env categoria url_base 3 =
      walkFromFuel env categoria url_base 3 4 1 := rfl
  rw [e, s1, s2, s3]
  refine ⟨by simp, rfl, by simp [List.countP, List.countP.go, Req.isFull], by simp [List.countP, List.countP.go, Req.isProbe]⟩

/-- C6 environment: pages 1 and 2 of the celulares template probe as
existing, every other URL fails; full fetches all fail (so both pages
contribute empty record lists). -/
def env6 : ScanEnv :=
  { probeFetch := fun url =>
      if url = buildUrl URL_celulares 1 ∨ url = buildUrl URL_celulares 2 then
        .success 200 pageW
      else .failure,
    fullFetch := fun _ => .failure }

/-- C6 witness: the probe sequence of `env6` is exists, exists, not-exists,
and the theorem gives the concatenated output and the exact request
trace. -/
theorem C6_three_page_scenario_witness :
    ((verificar_pagina_existe env6 (buildUrl URL_celulares 1)).1 = true ∧
     (verificar_pagina_existe env6 (buildUrl URL_celulares 2)).1 = true ∧
     (verificar_pagina_existe env6 (buildUrl URL_celulares 3)).1 = false) ∧
    ((escanear_categoria env6 "celulares" URL_celulares 3).1 =
       pageRecords env6 "celulares" URL_celulares 1 ++
         pageRecords env6 "celulares" URL_celulares 2 ∧
     (escanear_categoria env6 "celulares" URL_celulares 3).2 =
       [Req.probe 1, Req.full 1, Req.probe 2, Req.full 2, Req.probe 3] ∧
     ((escanear_categoria env6 "celulares" URL_celulares 3).2.countP
        Req.isFull) = 2 ∧
     ((escanear_categoria env6 "celulares" URL_celulares 3).2.countP
        Req.isProbe) = 3) :=
  ⟨⟨by decide, by decide, by decide⟩,
   C6_three_page_scenario env6 "celulares" URL_celulares
     (by decide) (by decide) (by decide)⟩

/-- Loop invariant: if the probe of page `p` reports non-existence, the
walk starting at any page `≤ p` issues no request for a page beyond
`p`. -/
theorem walk_trace_le (env : ScanEnv) (categoria url_base : String)
    (maxP p : Nat)
    (hfalse : (verificar_pagina_existe env (buildUrl url_base p)).1 = false) :
    ∀ fuel pagina, pagina ≤ p →
      ∀ q ∈ (walkFromFuel env categoria url_base maxP fuel pagina).2,
        q.pageOf ≤ p := by
  intro fuel
  induction fuel with
  | zero => intro pagina _ q hq; simp [walkFromFuel] at hq
  | succ n ih =>
    intro pagina hle q hq
    simp only [walkFromFuel] at hq
    split at hq
    · simp at hq
    · split at hq
      · next hex =>
        have hlt : pagina < p := by
          rcases Nat.lt_or_ge pagina p with h | h
          · exact h
          · exfalso
            have : pagina = p := by omega
            rw [this, hfalse] at hex
            exact Bool.false_ne_true hex
        rcases List.mem_cons.1 hq with rfl | hq'
        · simp [Req.pageOf]; omega
        · rcases List.mem_cons.1 hq' with rfl | hq''
          · simp [Req.pageOf]; omega
          · exact ih (pagina + 1) (by omega) q hq''
      · rcases List.mem_cons.1 hq with rfl | hq'
        · simp [Req.pageOf]; omega
        · simp at hq'

/-- Loop invariant: while every page in `[pagina, maxP]` probes as
existing, the walk with enough fuel probes every page of that interval
(no early termination, no skipping). -/
theorem walk_no_skip (env : ScanEnv) (categoria url_base : String)
    (maxP : Nat)
    (htrue : ∀ q, 1 ≤ q → q ≤ maxP →
      (verificar_pagina_existe env (buildUrl url_base q)).1 = true) :
    ∀ fuel pagina p, 1 ≤ pagina → pagina ≤ p → p ≤ maxP →
      maxP + 1 ≤ fuel + pagina →
      Req.probe p ∈ (walkFromFuel env categoria url_base maxP fuel pagina).2 := by
  intro fuel
  induction fuel with
  | zero => intro pagina p h0 h1 h2 h3; omega
  | succ n ih =>
    intro pagina p h0 h1 h2 h3
    rw [walk_step_true env categoria url_base maxP n pagina (by omega)
      (htrue pagina h0 (by omega))]
    rcases Nat.eq_or_lt_of_le h1 with rfl | hlt
    · exact List.mem_cons_self _ _
    · exact List.mem_cons_of_mem _ (List.mem_cons_of_mem _
        (ih (pagina + 1) p (by omega) (by omega) h2 (by omega)))

/-- C2: if the probe of page `p` returns non-existence, the walker
requests no page numbered greater than `p` in that category (it
terminates at the first non-existent page); and while all probes up to
the page cap report existence, every page up to the cap is probed, so
probe non-existence and the page cap are the only normal termination
conditions. -/
theorem C2_terminates_at_first_missing_page (env : ScanEnv)
    (categoria url_base : String) (maxP p : Nat) (hp : 1 ≤ p) :
    ((verificar_pagina_existe env (buildUrl url_base p)).1 = false →
      ∀ q ∈ (escanear_categoria env categoria url_base maxP).2,
        q.pageOf ≤ p) ∧
    ((∀ q, 1 ≤ q → q ≤ maxP →
        (verificar_pagina_existe env (buildUrl url_base q)).1 = true) →
      p ≤ maxP →
      Req.probe p ∈ (escanear_categoria env categoria url_base maxP).2) := by
  constructor
  · intro hfalse q hq
    exact walk_trace_le env categoria url_base maxP p hfalse (maxP + 1) 1 hp q hq
  · intro htrue hpm
    exact walk_no_skip env categoria url_base maxP htrue (maxP + 1) 1 p
      (le_refl 1) hp hpm (by omega)

/-- C2 witness: in `envW` the probe of page 2 fails, and the theorem
bounds every request of the scan of the 3-page celulares category by page
2. -/
theorem C2_terminates_witness :
    1 ≤ 2 ∧
    (((verificar_pagina_existe envW (buildUrl URL_celulares 2)).1 = false →
       ∀ q ∈ (escanear_categoria envW "celulares" URL_celulares 3).2,
         q.pageOf ≤ 2) ∧
     ((∀ q, 1 ≤ q → q ≤ 3 →
         (verificar_pagina_existe envW (buildUrl URL_celulares q)).1 = true) →
       2 ≤ 3 →
       Req.probe 2 ∈ (escanear_categoria envW "celulares" URL_celulares 3).2)) :=
  ⟨by decide,
   C2_terminates_at_first_missing_page envW "celulares" URL_celulares 3 2
     (by decide)⟩

/-- When the pattern does not occur in the scanned list, the core of
`str.replace` leaves the list unchanged (for any fuel). -/
theorem pyReplaceFuel_of_not_occurs (old new : List Char) :
    ∀ fuel l, occursIn old l = false → pyReplaceFuel old new fuel l = l := by
  intro fuel
  induction fuel with
  | zero => intro l _; cases l <;> rfl
  | succ n ih =>
    intro l h
    cases l with
    | nil => rfl
    | cons c cs =>
      simp only [occursIn, Bool.or_eq_false_iff] at h
      simp [pyReplaceFuel, h.1, ih cs h.2]

/-- Unfolding step of `pyReplaceFuel` at a match point. -/
theorem pyReplaceFuel_cons_yes (old new : List Char) (fuel : Nat) (c : Char)
    (cs : List Char) (h : old.isPrefixOf (c :: cs) = true) :
    pyReplaceFuel old new (fuel + 1) (c :: cs) =
      new ++ pyReplaceFuel old new fuel ((c :: cs).drop old.length) := by
  simp [pyReplaceFuel, h]

/-- Unfolding step of `pyReplaceFuel` at a non-match point. -/
theorem pyReplaceFuel_cons_no (old new : List Char) (fuel : Nat) (c : Char)
    (cs : List Char) (h : old.isPrefixOf (c :: cs) = false) :
    pyReplaceFuel old new (fuel + 1) (c :: cs) =
      c :: pyReplaceFuel old new fuel cs := by
  simp [pyReplaceFuel, h]

/-- When the first occurrence of the pattern in `pre ++ old ++ post` is
exactly the `old` in the middle and the pattern does not occur in `post`,
`str.replace` rewrites exactly that occurrence. -/
theorem pyReplaceFuel_first (old new : List Char) :
    ∀ (pre : List Char) (fuel : Nat) (post : List Char),
      old ≠ [] →
      old.isPrefixOf (old ++ post) = true →
      noStartIn old pre (old ++ post) = true →
      occursIn old post = false →
      pre.length < fuel →
      pyReplaceFuel old new fuel (pre ++ (old ++ post)) =
        pre ++ (new ++ post) := by
  intro pre
  induction pre with
  | nil =>
    intro fuel post hold hm hpre hpost hfuel
    cases fuel with
    | zero => omega
    | succ n =>
      cases old with
      | nil => exact absurd rfl hold
      | cons o os =>
        have hcons : (o :: os) ++ post = o :: (os ++ post) :=
          List.cons_append o os post
        rw [List.nil_append, List.nil_append, hcons,
          pyReplaceFuel_cons_yes (o :: os) new n o (os ++ post)
            (by rwa [hcons] at hm),
          ← hcons, List.drop_left,
          pyReplaceFuel_of_not_occurs (o :: os) new n post hpost]
  | cons c pre' ih =>
    intro fuel post hold hm hpre hpost hfuel
    cases fuel with
    | zero => simp at hfuel
    | succ n =>
      simp only [noStartIn, Bool.and_eq_true, Bool.not_eq_true'] at hpre
      have hcons : (c :: pre') ++ (old ++ post) =
          c :: (pre' ++ (old ++ post)) := List.cons_append _ _ _
      rw [hcons, pyReplaceFuel_cons_no old new n c (pre' ++ (old ++ post))
          hpre.1,
        ih n post hold hm hpre.2 hpost (by
          simp only [List.length_cons] at hfuel
          omega),
        List.cons_append]

/-- Transfer from character lists back to strings. -/
theorem asString_toList_append3 (a b c : String) :
    (a.toList ++ (b.toList ++ c.toList)).asString = a ++ (b ++ c) := by
  cases a; cases b; cases c; rfl

/-- `str.replace` on a string that splits as `pre ++ old ++ post`, with
the first occurrence of `old` at the split point and none later, yields
`pre ++ new ++ post`. -/
theorem pyReplace_single (s old new pre post : String)
    (hs : s.toList = pre.toList ++ (old.toList ++ post.toList))
    (hold : old.toList ≠ [])
    (hm : old.toList.isPrefixOf (old.toList ++ post.toList) = true)
    (hpre : noStartIn old.toList pre.toList
      (old.toList ++ post.toList) = true)
    (hpost : occursIn old.toList post.toList = false) :
    pyReplace s old new = pre ++ (new ++ post) := by
  unfold pyReplace
  rw [hs]
  have hne : old.toList.length ≠ 0 := by
    intro h0
    exact hold (List.eq_nil_of_length_eq_zero h0)
  have hfuel : pre.toList.length <
      (pre.toList ++ (old.toList ++ post.toList)).length := by
    simp only [List.length_append]
    omega
  rw [pyReplaceFuel_first old.toList new.toList pre.toList _ post.toList
    hold hm hpre hpost hfuel]
  exact asString_toList_append3 pre new post

/-- The celulares base template up to (excluding) `_OrderId`. -/
def celPre : String :=
  "https://listado.mercadolibre.cl/celulares-telefonia/celulares-smartphones/usado/celular"

/-- The notebooks base template up to (excluding) `_OrderId`. -/
def nbPre : String :=
  "https://listado.mercadolibre.cl/computacion/notebooks-accesorios/notebooks/usado/notebook"

/-- The shared tail of both base templates, after `_OrderId`. -/
def URL_sufijo : String := "_PRICE_PublishedToday_YES_NoIndex_True"

/-- C3: page 1 uses the base template verbatim; for every page `n > 1`
the requested URL of each configured category is its base template with
the offset token `_Desde_{(n-1)*50+1}` inserted before `_OrderId`. -/
theorem C3_url_construction :
    (∀ url_base, buildUrl url_base 1 = url_base) ∧
    (∀ n, 2 ≤ n →
      buildUrl URL_celulares n =
        celPre ++ ("_Desde_" ++ Nat.repr ((n - 1) * 50 + 1) ++ "_OrderId") ++
          URL_sufijo) ∧
    (∀ n, 2 ≤ n →
      buildUrl URL_notebooks n =
        nbPre ++ ("_Desde_" ++ Nat.repr ((n - 1) * 50 + 1) ++ "_OrderId") ++
          URL_sufijo) := by
  refine ⟨fun u => rfl, fun n hn => ?_, fun n hn => ?_⟩
  · unfold buildUrl
    rw [if_neg (by omega : ¬ n = 1)]
    exact pyReplace_single URL_celulares "_OrderId" _ celPre URL_sufijo
      (by decide) (by decide) (by decide) (by decide) (by decide)
  · unfold buildUrl
    rw [if_neg (by omega : ¬ n = 1)]
    exact pyReplace_single URL_notebooks "_OrderId" _ nbPre URL_sufijo
      (by decide) (by decide) (by decide) (by decide) (by decide)

/-- C3 witness: at `n = 2` the celulares URL carries the token
`_Desde_51`. -/
theorem C3_url_construction_witness :
    2 ≤ 2 ∧
    buildUrl URL_celulares 2 =
      celPre ++ ("_Desde_" ++ Nat.repr ((2 - 1) * 50 + 1) ++ "_OrderId") ++
        URL_sufijo :=
  ⟨by decide, C3_url_construction.2.1 2 (by decide)⟩

/-- A character list starting with `/` does not start with `http`. -/
theorem isPrefixOf_slash_not_http (l : List Char)
    (h : ['/'].isPrefixOf l = true) :
    ['h', 't', 't', 'p'].isPrefixOf l = false := by
  cases l with
  | nil => simp [List.isPrefixOf] at h
  | cons c rest =>
    simp only [List.isPrefixOf, Bool.and_eq_true, beq_iff_eq] at h
    obtain ⟨hc, -⟩ := h
    subst hc
    simp [List.isPrefixOf]

/-- A character allowed inside a URI scheme name after the leading
letter: `ALPHA / DIGIT / "+" / "-" / "."`. -/
def isSchemeChar (c : Char) : Bool :=
  c.isAlpha || c.isDigit || c == '+' || c == '-' || c == '.'

/-- Spec-side notion, following the spec's words "if it does not start
with a scheme, prefix with the fixed site origin": a string starts with
a URI scheme when it begins with a letter followed by scheme characters
and then a colon (`ALPHA *( ALPHA / DIGIT / "+" / "-" / "." ) ":"`).
This is NOT the code's guard — the code tests `link.startswith('http')` —
and the two are compared in the C7 counterexample. -/
def startsWithScheme (s : String) : Bool :=
  match s.toList with
  | [] => false
  | c :: cs =>
    c.isAlpha &&
      match cs.dropWhile isSchemeChar with
      | ':' :: _ => true
      | _ => false

/-- C7 counterexample item: its first anchor href is `httpfoo/bar`,
which starts with no URI scheme (no leading scheme run ending in `:`)
but does start with the literal characters `http`. -/
def itemNoScheme : Item :=
  { h2TitleClass := some "X", h2Any := some "X",
    anchor := some { href := "httpfoo/bar", titleAttr := "", ariaLabel := "" },
    titleDiv := none, fullText := "X", priceSpan := none, img := none }

/-- C7 counterexample: the href `httpfoo/bar` does not start with a
scheme, so the claim's clause "a link not starting with a scheme is
origin-prefixed" predicts the origin-prefixed link; the code's guard is
`startswith('http')`, so it stores the href unprefixed. -/
theorem C7_counterexample_schemeless_link :
    startsWithScheme "httpfoo/bar" = false ∧
    itemNoScheme.anchor =
      some { href := "httpfoo/bar", titleAttr := "", ariaLabel := "" } ∧
    extraer_link itemNoScheme = "httpfoo/bar" ∧
    extraer_link itemNoScheme ≠
      "https://www.mercadolibre.cl" ++ "httpfoo/bar" :=
  ⟨by decide, by decide, by decide, by decide⟩

/-- C7 (amended): for the item whose first anchor href is
`/MLC-123456-foo`, the stored link is the site origin prefixed to the
href and the extracted id is `MLC123456` (first regex match, hyphen
stripped); in general, a link is origin-prefixed exactly when it does
not start with the literal characters `http` (the code's guard) — in
particular every `/`-relative href is origin-prefixed, while any
`http`-prefixed string, scheme or not, is stored verbatim. -/
theorem C7_link_prefix_and_id :
    (extraer_link itemW = "https://www.mercadolibre.cl/MLC-123456-foo" ∧
     extraer_id (extraer_link itemW) = "MLC123456" ∧
     extraerProducto "celulares" 1 itemW = some recW) ∧
    (∀ (item : Item) (a : Anchor), item.anchor = some a →
      (pyStartsWith a.href "http" = false →
        extraer_link item = "https://www.mercadolibre.cl" ++ a.href) ∧
      (pyStartsWith a.href "http" = true → extraer_link item = a.href) ∧
      (pyStartsWith a.href "/" = true →
        extraer_link item = "https://www.mercadolibre.cl" ++ a.href)) := by
  refine ⟨⟨by decide, by decide, by decide⟩, ?_⟩
  intro item a ha
  refine ⟨?_, ?_, ?_⟩
  · intro hf
    unfold extraer_link
    simp only [ha]
    rw [if_neg (by simp [hf])]
  · intro ht
    unfold extraer_link
    simp only [ha]
    rw [if_pos ht]
  · intro hrel
    have hhttp : pyStartsWith a.href "http" = false := by
      unfold pyStartsWith at hrel ⊢
      have e1 : "/".toList = ['/'] := rfl
      have e2 : "http".toList = ['h', 't', 't', 'p'] := rfl
      rw [e1] at hrel
      rw [e2]
      exact isPrefixOf_slash_not_http a.href.toList hrel
    unfold extraer_link
    simp only [ha]
    rw [if_neg (by simp [hhttp])]

/-- C7 witness: the amended theorem's general clauses applied to
`itemW`'s relative href. -/
theorem C7_link_prefix_and_id_witness :
    (itemW.anchor =
       some { href := "/MLC-123456-foo", titleAttr := "", ariaLabel := "" } ∧
     pyStartsWith "/MLC-123456-foo" "http" = false ∧
     pyStartsWith "/MLC-123456-foo" "/" = true) ∧
    extraer_link itemW = "https://www.mercadolibre.cl" ++ "/MLC-123456-foo" :=
  ⟨⟨by decide, by decide, by decide⟩,
   (C7_link_prefix_and_id.2 itemW
     { href := "/MLC-123456-foo", titleAttr := "", ariaLabel := "" }
     (by decide)).1 (by decide)⟩

/-- C4 counterexample: a response with the 2xx status 201, a markup body
and one primary item.  The claim predicts the probe counts the items and
returns `(true, 1)`; the code requires status exactly 200 and returns
`(false, 0)`. -/
def envC4 : ScanEnv :=
  { probeFetch := fun _ => .success 201 pageW, fullFetch := fun _ => .failure }

/-- C4 counterexample: at status 201 (a 2xx status, markup body, one item
found by the primary selector) the probe returns `(false, 0)`, not
`(count > 0, count) = (true, 1)` as the claim states. -/
theorem C4_counterexample_status_201 :
    envC4.probeFetch "url" = FetchResult.success 201 pageW ∧
    (200 ≤ 201 ∧ 201 < 300) ∧
    pyStartsWith (htmlPreview pageW.rawText) "<" = true ∧
    (seleccionar_items pageW).length = 1 ∧
    verificar_pagina_existe envC4 "url" = (false, 0) ∧
    verificar_pagina_existe envC4 "url" ≠ (true, 1) :=
  ⟨rfl, by decide, by decide, by decide, by decide, by decide⟩

/-- C4 (amended): `probePage` returns `(false, 0)` on a transport
failure, on any status other than exactly 200, and on a body whose
stripped 300-character preview does not begin with `<`; otherwise it
counts item containers with the primary selector, falling back to the
secondary selector only when the primary count is zero, and returns
`(count > 0, count)`. -/
theorem C4_probe_contract (env : ScanEnv) (url : String) :
    (env.probeFetch url = .failure →
      verificar_pagina_existe env url = (false, 0)) ∧
    (∀ st page, env.probeFetch url = .success st page →
      ((st ≠ 200 → verificar_pagina_existe env url = (false, 0)) ∧
       (pyStartsWith (htmlPreview page.rawText) "<" = false →
         verificar_pagina_existe env url = (false, 0)) ∧
       (st = 200 → pyStartsWith (htmlPreview page.rawText) "<" = true →
         verificar_pagina_existe env url =
           (decide (0 < (seleccionar_items page).length),
            (seleccionar_items page).length)))) := by
  constructor
  · intro hf
    unfold verificar_pagina_existe
    rw [hf]
  · intro st page hs
    refine ⟨?_, ?_, ?_⟩
    · intro hst
      unfold verificar_pagina_existe
      simp only [hs]
      rw [if_pos hst]
    · intro hpre
      unfold verificar_pagina_existe
      simp only [hs]
      by_cases hst : st ≠ 200
      · rw [if_pos hst]
      · rw [if_neg hst, if_pos (by simp [hpre])]
    · intro hst hpre
      unfold verificar_pagina_existe
      simp only [hs]
      rw [if_neg (by omega : ¬ st ≠ 200), if_neg (by simp [hpre])]
      by_cases hl : (seleccionar_items page).length > 0
      · rw [if_pos hl]
        simp [hl]
      · rw [if_neg hl]
        simp only [Nat.pos_iff_ne_zero, ne_eq, not_not] at hl
        simp [hl]

/-- C4 witness: in `env5` (status 200, markup body, one item) the theorem
gives the probe result as the item count of the primary selector. -/
theorem C4_probe_contract_witness :
    env5.probeFetch "url" = FetchResult.success 200 pageW ∧
    pyStartsWith (htmlPreview pageW.rawText) "<" = true ∧
    verificar_pagina_existe env5 "url" =
      (decide (0 < (seleccionar_items pageW).length),
       (seleccionar_items pageW).length) :=
  ⟨rfl, by decide,
   ((C4_probe_contract env5 "url").2 200 pageW rfl).2.2 rfl (by decide)⟩

/-- A second well-formed item whose link yields the same id `MLC123456`
as `itemW` (different href tail, different title). -/
def itemW2 : Item :=
  { h2TitleClass := some "iPhone 12 usado", h2Any := some "iPhone 12 usado",
    anchor := some { href := "/MLC-123456-bar", titleAttr := "", ariaLabel := "" },
    titleDiv := none, fullText := "iPhone 12 usado",
    priceSpan := some "180.000", img := none }

/-- The record the item loop accepts from `itemW2`. -/
def recW2 : Producto :=
  { id := "MLC123456", title := "iPhone 12 usado", price := "$ 180.000",
    link := "https://www.mercadolibre.cl/MLC-123456-bar", image := "",
    categoria := "celulares", pagina := 1 }

/-- A page whose item list holds two items with the same product id. -/
def pageDup : Page :=
  { rawText := "<html>", items1 := [itemW, itemW2], items2 := [],
    hasRescue := false }

/-- C8 counterexample environment: page 1 of celulares serves `pageDup`,
all other URLs fail. -/
def envC8 : ScanEnv :=
  { probeFetch := fun url =>
      if url = URL_celulares then .success 200 pageDup else .failure,
    fullFetch := fun url =>
      if url = URL_celulares then .success 200 pageDup else .failure }

/-- C8 counterexample: two items of the same page yield the id
`MLC123456`, and the scan output contains two records with that id — not
one as the claim states; nothing is overwritten. -/
theorem C8_counterexample_duplicate_ids :
    ((escanear_categoria envC8 "celulares" URL_celulares 3).1.map
       (fun r => r.id)) = ["MLC123456", "MLC123456"] ∧
    ((escanear_categoria envC8 "celulares" URL_celulares 3).1.filter
       (fun r => r.id == "MLC123456")).length = 2 :=
  ⟨by decide, by decide⟩

/-- C8 (amended): ids are not deduplicated within a scan's output; every
accepted item contributes its own record, so two same-id items on one
page yield two records, in item order, with no overwrite. -/
theorem C8_duplicate_ids_both_kept (env : ScanEnv) (categoria url : String)
    (pagina : Nat) (page : Page) (pre mid post : List Item)
    (it1 it2 : Item) (r1 r2 : Producto)
    (hf : env.fullFetch url = .success 200 page)
    (hsel : seleccionar_items page = pre ++ it1 :: (mid ++ it2 :: post))
    (h1 : extraerProducto categoria pagina it1 = some r1)
    (h2 : extraerProducto categoria pagina it2 = some r2)
    (hid : r1.id = r2.id) :
    procesar_pagina env categoria pagina url =
      some (pre.filterMap (extraerProducto categoria pagina) ++
        r1 :: (mid.filterMap (extraerProducto categoria pagina) ++
          r2 :: post.filterMap (extraerProducto categoria pagina))) := by
  unfold procesar_pagina
  simp only [hf]
  rw [if_neg (by omega : ¬ (200 : Nat) ≠ 200), hsel,
    List.filterMap_append, List.filterMap_cons_some h1,
    List.filterMap_append, List.filterMap_cons_some h2]

/-- C8 witness: on `pageDup` both same-id records `recW` and `recW2` are
kept, in item order. -/
theorem C8_duplicate_ids_both_kept_witness :
    (envC8.fullFetch URL_celulares = FetchResult.success 200 pageDup ∧
     seleccionar_items pageDup = [] ++ itemW :: ([] ++ itemW2 :: []) ∧
     extraerProducto "celulares" 1 itemW = some recW ∧
     extraerProducto "celulares" 1 itemW2 = some recW2 ∧
     recW.id = recW2.id) ∧
    procesar_pagina envC8 "celulares" 1 URL_celulares =
      some (([] : List Item).filterMap (extraerProducto "celulares" 1) ++
        recW :: (([] : List Item).filterMap (extraerProducto "celulares" 1) ++
          recW2 :: ([] : List Item).filterMap (extraerProducto "celulares" 1))) :=
  ⟨⟨by decide, by decide, by decide, by decide, by decide⟩,
   C8_duplicate_ids_both_kept envC8 "celulares" URL_celulares 1 pageDup
     [] [] [] itemW itemW2 recW recW2
     (by decide) (by decide) (by decide) (by decide) (by decide)⟩

/-- C9 environment: the upstream host is fully unreachable — every fetch
of every URL fails with a transport error. -/
def envFailAll : ScanEnv :=
  { probeFetch := fun _ => .failure, fullFetch := fun _ => .failure }

/-- C9 counterexample: with every page fetch in every category failing,
the `/scan` endpoint still reports success with an empty result set — it
does not surface a failed scan as the claim states. -/
theorem C9_counterexample_unreachable_host :
    (scan_mercadolibre envFailAll).success = true ∧
    (scan_mercadolibre envFailAll).total_productos = 0 ∧
    (scan_mercadolibre envFailAll).celulares = [] ∧
    (scan_mercadolibre envFailAll).notebooks = [] :=
  ⟨by decide, by decide, by decide, by decide⟩

/-- C9 (amended): when every probe fetch fails (fully unreachable
upstream host), the scan returns success with zero products and empty
category lists; no failure surfaces to the caller. -/
theorem C9_unreachable_host_success_empty (env : ScanEnv)
    (hprobe : ∀ url, env.probeFetch url = .failure) :
    (scan_mercadolibre env).success = true ∧
    (scan_mercadolibre env).total_productos = 0 ∧
    (scan_mercadolibre env).celulares = [] ∧
    (scan_mercadolibre env).notebooks = [] := by
  have hver : ∀ url, verificar_pagina_existe env url = (false, 0) := by
    intro url
    unfold verificar_pagina_existe
    rw [hprobe url]
  have hcel := walk_step_false env "celulares" URL_celulares 3 3 1
    (by omega) (by rw [hver])
  have hnb := walk_step_false env "notebooks" URL_notebooks 2 2 1
    (by omega) (by rw [hver])
  have hc : paginasConfigGet "celulares" = 3 := by decide
  have hn : paginasConfigGet "notebooks" = 2 := by decide
  refine ⟨?_, ?_, ?_, ?_⟩ <;>
  · unfold scan_mercadolibre escanear_mercadolibre escanear_categoria
    rw [hc, hn, hcel, hnb]
    try rfl

/-- C9 witness: the amended theorem applied to the all-failing
environment. -/
theorem C9_unreachable_host_witness :
    (scan_mercadolibre envFailAll).total_productos = 0 ∧
    (scan_mercadolibre envFailAll).success = true :=
  ⟨(C9_unreachable_host_success_empty envFailAll (fun _ => rfl)).2.1,
   (C9_unreachable_host_success_empty envFailAll (fun _ => rfl)).1⟩

end MLScan
